import Mathlib

/-!
# Earnings Beat Scanner — shallow embedding

A shallow embedding of `src/earnings_scanner.py` (class `EarningsBeatScanner`).
Provider data that the Python code fetches from yfinance is modelled as
explicit input structures; a fetch that raises an exception is modelled by
`none` at the corresponding `Option` (each evaluator's `try/except` returns
the same score-0 default on exception as on missing data, so `none` covers
both).  Scores are `Int` (the analyst evaluator can return −10); prices,
returns and rates are `ℚ`.  Numeric interpolation inside display strings
(`f"{pct:.1f}"`-style formatting) is elided where it would require decimal
formatting of rationals; integer counts are kept via `toString`.
-/

namespace EarningsScanner

/-- `self.alert_threshold` set in `EarningsBeatScanner.__init__` (line 22). -/
def alert_threshold : Int := 70

/-- One element of the `upcoming_earnings` list built by
`get_upcoming_earnings`: ticker, company name, market cap, sector and the
earnings date (modelled as an integer timestamp). -/
structure StockInfo where
  ticker : String
  company : String
  earningsDate : Int
  marketCap : Int
  sector : String
deriving Repr, DecidableEq

/-! ## Evaluator input data (per-ticker provider data) -/

/-- Data consumed by `calculate_earnings_esp`.
`hasAnalysis` is `stock.analysis is not None and not analysis.empty`;
`meanEstimate` is the value `eps_data['mean_estimate']` extracted from the
`current` entry of the `Eps Trend` / `Eps Revisions` rows (`none` when no
row provided one); `hasRevisions` is `'Eps Revisions' in analysis.index`
with a dict value for the current quarter; `upLast7days` / `downLast7days`
are `revisions.get('upLast7days', 0)` / `revisions.get('downLast7days', 0)`
(arbitrary provider numbers, hence `Int`). -/
structure EspData where
  hasAnalysis : Bool
  meanEstimate : Option ℚ
  hasRevisions : Bool
  upLast7days : Int
  downLast7days : Int
deriving Repr, DecidableEq

/-- Data consumed by `check_insider_activity`.
`hasTrades` is `insider_trades is not None and not insider_trades.empty and
'Transaction' in insider_trades.columns`; `numPurchases` is
`len(purchases)`, the number of purchase transactions in the last 30 days. -/
structure InsiderData where
  hasTrades : Bool
  numPurchases : Nat
deriving Repr, DecidableEq

/-- Data consumed by `check_analyst_activity`.
`hasRecs` is `recommendations is not None and not recommendations.empty`;
`numRecent` is `len(recent_recs)` (rows in the last 30 days); `upgrades` /
`downgrades` count the recent rows whose `To Grade` matches
`Buy|Outperform|Overweight` resp. `Sell|Underperform|Underweight`. -/
structure AnalystData where
  hasRecs : Bool
  numRecent : Nat
  upgrades : Nat
  downgrades : Nat
deriving Repr, DecidableEq

/-- Data consumed by `check_price_momentum`: the 1-month history's `Close`
and `High` columns, row by row. -/
structure MomentumData where
  closes : List ℚ
  highs : List ℚ
deriving Repr, DecidableEq

/-- Data consumed by `check_historical_beat_rate`: the rows of
`stock.earnings_dates` in provider order (most recent first), each row's
`Surprise(%)` cell (`none` = NaN, i.e. no reported surprise), and whether
the `Surprise(%)` column exists at all. -/
structure EarningsHistData where
  rows : List (Option ℚ)
  hasSurpriseCol : Bool
deriving Repr, DecidableEq

/-- Data consumed by `check_sector_momentum`: the 10-day `Close` histories
of the sector ETF and of SPY. -/
structure SectorFetch where
  etfCloses : List ℚ
  spyCloses : List ℚ
deriving Repr, DecidableEq

/-- All provider data `analyze_stock` pulls for one ticker; `none` at a
field means that evaluator's fetch raised an exception. -/
structure ProviderData where
  esp : Option EspData
  insider : Option InsiderData
  analyst : Option AnalystData
  momentum : Option MomentumData
  history : Option EarningsHistData
  sectorFetch : Option SectorFetch
deriving Repr, DecidableEq

/-! ## Evaluator results -/

/-- Result of `calculate_earnings_esp` (the keys the caller reads). -/
structure EspResult where
  has_data : Bool
  esp_score : Int
  signal_strength : String
deriving Repr, DecidableEq

/-- Result of `check_insider_activity`. -/
structure InsiderResult where
  has_activity : Bool
  score : Int
  num_purchases : Nat
  signal : String
deriving Repr, DecidableEq

/-- Result of `check_analyst_activity`. -/
structure AnalystResult where
  has_activity : Bool
  score : Int
  upgrades : Nat
  downgrades : Nat
  signal : Option String
deriving Repr, DecidableEq

/-- Result of `check_price_momentum`. -/
structure MomentumResult where
  has_momentum : Bool
  score : Int
  signals : List String
deriving Repr, DecidableEq

/-- Result of `check_historical_beat_rate`. -/
structure HistoryResult where
  has_history : Bool
  score : Int
  beat_rate : ℚ
  beats : Nat
  total : Nat
  signal : String
deriving Repr, DecidableEq

/-- Result of `check_sector_momentum`. -/
structure SectorResult where
  has_momentum : Bool
  score : Int
  outperformance : ℚ
  signal : String
deriving Repr, DecidableEq

/-! ## The six evaluators -/

/-- `calculate_earnings_esp` (lines 116–177).  `if eps_data['mean_estimate']:`
is Python truthiness: `None` and `0.0` are both falsy. -/
def calculate_earnings_esp : Option EspData → EspResult
  | none => { has_data := false, esp_score := 0, signal_strength := "" }
  | some d =>
    if d.hasAnalysis then
      match d.meanEstimate with
      | some m =>
        if m ≠ 0 then
          let esp_score : Int :=
            if d.hasRevisions ∧ d.upLast7days > d.downLast7days then
              min 30 (d.upLast7days * 5)
            else 0
          { has_data := true, esp_score := esp_score,
            signal_strength :=
              if esp_score > 20 then "Strong"
              else if esp_score > 10 then "Moderate" else "Weak" }
        else { has_data := false, esp_score := 0, signal_strength := "" }
      | none => { has_data := false, esp_score := 0, signal_strength := "" }
    else { has_data := false, esp_score := 0, signal_strength := "" }

/-- `check_insider_activity` (lines 179–224). -/
def check_insider_activity : Option InsiderData → InsiderResult
  | none => { has_activity := false, score := 0, num_purchases := 0, signal := "" }
  | some d =>
    if d.hasTrades ∧ d.numPurchases > 0 then
      let score : Int :=
        if d.numPurchases ≥ 3 then 25
        else if d.numPurchases = 2 then 15
        else if d.numPurchases = 1 then 10
        else 0
      { has_activity := true, score := score, num_purchases := d.numPurchases,
        signal := if d.numPurchases ≥ 3 then "Cluster buying" else "Insider buying" }
    else { has_activity := false, score := 0, num_purchases := 0, signal := "" }

/-- `check_analyst_activity` (lines 226–268). -/
def check_analyst_activity : Option AnalystData → AnalystResult
  | none => { has_activity := false, score := 0, upgrades := 0, downgrades := 0, signal := none }
  | some d =>
    if d.hasRecs ∧ d.numRecent > 0 then
      let score : Int :=
        if d.upgrades > d.downgrades then min 20 ((d.upgrades : Int) * 7)
        else if d.downgrades > d.upgrades then -10
        else 0
      let signal : Option String :=
        if d.upgrades > d.downgrades then
          some (toString d.upgrades ++ " recent upgrade(s)")
        else if d.downgrades > d.upgrades then
          some (toString d.downgrades ++ " recent downgrade(s)")
        else none
      { has_activity := true, score := score, upgrades := d.upgrades,
        downgrades := d.downgrades, signal := signal }
    else { has_activity := false, score := 0, upgrades := 0, downgrades := 0, signal := none }

/-- `hist['Close'].iloc[-1]`. -/
def currentClose (d : MomentumData) : ℚ := d.closes.getLastD 0

/-- `hist['Close'].iloc[-10] if len(hist) >= 10 else hist['Close'].iloc[0]`. -/
def price10dAgo (d : MomentumData) : ℚ :=
  if d.closes.length ≥ 10 then d.closes.getD (d.closes.length - 10) 0
  else d.closes.getD 0 0

/-- `hist['High'].max()`. -/
def high30d (d : MomentumData) : ℚ := (d.highs.max?).getD 0

/-- `pct_change = ((current_price - price_10d_ago) / price_10d_ago) * 100`. -/
def pctChange10d (d : MomentumData) : ℚ :=
  ((currentClose d - price10dAgo d) / price10dAgo d) * 100

/-- `pct_from_high = ((current_price - high_30d) / high_30d) * 100`. -/
def pctFromHigh (d : MomentumData) : ℚ :=
  ((currentClose d - high30d d) / high30d d) * 100

/-- `check_price_momentum` (lines 270–318).  The `f"Up {pct:.1f}% in 10
days"` interpolation is elided to a fixed string. -/
def check_price_momentum : Option MomentumData → MomentumResult
  | none => { has_momentum := false, score := 0, signals := [] }
  | some d =>
    if d.closes.length > 5 then
      let pct_change := pctChange10d d
      let pct_from_high := pctFromHigh d
      let s1 : Int := if pct_change > 5 then 15 else if pct_change > 2 then 10 else 0
      let sig1 : List String :=
        if pct_change > 5 then ["Up % in 10 days"]
        else if pct_change > 2 then ["Up % in 10 days"] else []
      let s2 : Int := if pct_from_high > -3 then 10 else 0
      let sig2 : List String := if pct_from_high > -3 then ["Near 30-day highs"] else []
      let score := s1 + s2
      { has_momentum := score > 0, score := score, signals := sig1 ++ sig2 }
    else { has_momentum := false, score := 0, signals := [] }

/-- Is a `Surprise(%)` cell a beat?  pandas `NaN > 0` is `False`, so a row
without a reported surprise never counts as a beat. -/
def isBeat : Option ℚ → Bool
  | some v => v > 0
  | none => false

/-- `check_historical_beat_rate` (lines 320–361).  `recent_earnings =
earnings_hist.head(4)`; `beats` filters `Surprise(%) > 0`; `total =
len(recent_earnings)` — rows with an unreported (NaN) surprise are counted
in `total` but never in `beats`. -/
def check_historical_beat_rate : Option EarningsHistData → HistoryResult
  | none => { has_history := false, score := 0, beat_rate := 0, beats := 0, total := 0, signal := "" }
  | some d =>
    if d.rows ≠ [] then
      let recent := d.rows.take 4
      if d.hasSurpriseCol then
        let beats := (recent.filter isBeat).length
        let total := recent.length
        if total > 0 then
          let beat_rate : ℚ := (beats : ℚ) / (total : ℚ)
          let score : Int :=
            if beat_rate ≥ 3/4 then 20
            else if beat_rate ≥ 1/2 then 10
            else 0
          { has_history := true, score := score, beat_rate := beat_rate,
            beats := beats, total := total,
            signal := toString beats ++ "/" ++ toString total ++ " quarters beat" }
        else { has_history := false, score := 0, beat_rate := 0, beats := 0, total := 0, signal := "" }
      else { has_history := false, score := 0, beat_rate := 0, beats := 0, total := 0, signal := "" }
    else { has_history := false, score := 0, beat_rate := 0, beats := 0, total := 0, signal := "" }

/-- The `sector_etfs` dict in `check_sector_momentum` (lines 369–381). -/
def sector_etfs : List (String × String) :=
  [("Technology", "XLK"), ("Financial Services", "XLF"), ("Healthcare", "XLV"),
   ("Consumer Cyclical", "XLY"), ("Industrials", "XLI"), ("Energy", "XLE"),
   ("Consumer Defensive", "XLP"), ("Real Estate", "XLRE"),
   ("Communication Services", "XLC"), ("Utilities", "XLU"), ("Basic Materials", "XLB")]

/-- `((closes.iloc[-1] - closes.iloc[0]) / closes.iloc[0]) * 100`. -/
def tenDayReturn (closes : List ℚ) : ℚ :=
  ((closes.getLastD 0 - closes.getD 0 0) / closes.getD 0 0) * 100

/-- `check_sector_momentum` (lines 363–416).  The
`f"Sector outperforming by {outperformance:.1f}%"` interpolation is elided
to a fixed string. -/
def check_sector_momentum (sector : String) : Option SectorFetch → SectorResult
  | none => { has_momentum := false, score := 0, outperformance := 0, signal := "" }
  | some d =>
    match (sector_etfs.lookup sector) with
    | some _ =>
      if d.etfCloses.length > 0 ∧ d.spyCloses.length > 0 then
        let etf_return := tenDayReturn d.etfCloses
        let spy_return := tenDayReturn d.spyCloses
        let outperformance := etf_return - spy_return
        let score : Int :=
          if outperformance > 2 then 15
          else if outperformance > 0 then 10
          else 0
        { has_momentum := score > 0, score := score, outperformance := outperformance,
          signal := "Sector outperforming by %" }
      else { has_momentum := false, score := 0, outperformance := 0, signal := "" }
    | none => { has_momentum := false, score := 0, outperformance := 0, signal := "" }

/-! ## Aggregator (`analyze_stock`) -/

/-- The `analysis` dict built by `analyze_stock` (lines 418–478): the
running total and the ordered `(signal name, score, detail)` triples. -/
structure Analysis where
  ticker : String
  company : String
  earningsDate : Int
  sector : String
  total_score : Int
  signals : List (String × Int × String)
deriving Repr, DecidableEq

/-- One guarded block of `analyze_stock`: when `gate` holds, add `score`
to the running total and append `entries` to the signal list; otherwise
leave the analysis unchanged.  Every one of the six check blocks at
lines 434–474 has this shape. -/
def applyCheck (gate : Prop) [Decidable gate] (score : Int)
    (entries : List (String × Int × String)) (a : Analysis) : Analysis :=
  if gate then
    { a with total_score := a.total_score + score, signals := a.signals ++ entries }
  else a

/-- `analyze_stock` (lines 418–478), translated check by check in source
order.  The ESP block adds the score whenever `has_data` but displays it
only when positive (lines 435–438); the analyst result is added to the
total and appended to the signal list only when `analyst['has_activity']
and analyst['score'] > 0` (line 450); each fired momentum sub-signal
appends its own triple carrying the full combined momentum score
(lines 459–460). -/
def analyze_stock (si : StockInfo) (pd : ProviderData) : Analysis :=
  let a0 : Analysis :=
    { ticker := si.ticker, company := si.company, earningsDate := si.earningsDate,
      sector := si.sector, total_score := 0, signals := [] }
  let esp := calculate_earnings_esp pd.esp
  let a1 := applyCheck esp.has_data esp.esp_score
    (if esp.esp_score > 0 then [("📊 Earnings ESP", esp.esp_score, esp.signal_strength)] else [])
    a0
  let insider := check_insider_activity pd.insider
  let a2 := applyCheck insider.has_activity insider.score
    [("💼 Insider Activity", insider.score, insider.signal)] a1
  let analyst := check_analyst_activity pd.analyst
  let a3 := applyCheck (analyst.has_activity ∧ analyst.score > 0) analyst.score
    [("📈 Analyst Activity", analyst.score, analyst.signal.getD "")] a2
  let momentum := check_price_momentum pd.momentum
  let a4 := applyCheck momentum.has_momentum momentum.score
    (momentum.signals.map (fun s => ("📈 Price Momentum", momentum.score, s))) a3
  let history := check_historical_beat_rate pd.history
  let a5 := applyCheck history.has_history history.score
    [("📜 Historical Beat Rate", history.score, history.signal)] a4
  let sector := check_sector_momentum si.sector pd.sectorFetch
  applyCheck sector.has_momentum sector.score
    [("🏭 Sector Momentum", sector.score, sector.signal)] a5

/-! ## Notifier (`send_earnings_alert`) -/

/-- The suggested-play numbers computed in `send_earnings_alert`
(lines 516–546). -/
structure Play where
  shares : Int
  stop_pct : Int
  target_pct : Int
  stop_price : ℚ
  target_price : ℚ
  risk_reward : ℚ
deriving Repr, DecidableEq

/-- The position-sizing block of `send_earnings_alert` (lines 521–537):
`none` when `current_price <= 0` (the `if current_price > 0` guard fails
and no play field is appended).  Python `int(notional / price)` truncates
toward zero; with positive notional and price this is the floor. -/
def suggested_play (score : Int) (current_price : ℚ) : Option Play :=
  if current_price > 0 then
    let notional : ℚ := if score ≥ 80 then 5000 else if score ≥ 70 then 3000 else 2000
    let stop_pct : Int := if score ≥ 80 then 7 else if score ≥ 70 then 8 else 10
    let target_pct : Int := if score ≥ 80 then 15 else if score ≥ 70 then 12 else 10
    some { shares := ⌊notional / current_price⌋,
           stop_pct := stop_pct, target_pct := target_pct,
           stop_price := current_price * (1 - (stop_pct : ℚ)/100),
           target_price := current_price * (1 + (target_pct : ℚ)/100),
           risk_reward := (target_pct : ℚ) / (stop_pct : ℚ) }
  else none

/-- `analysis['signals'][:6]` — at most six signal fields are rendered
(line 508). -/
def displayedSignals (a : Analysis) : List (String × Int × String) :=
  a.signals.take 6

/-- The confidence label chosen in `send_earnings_alert` (lines 486–494). -/
def confidenceLabel (score : Int) : String :=
  if score ≥ 80 then "HIGH CONFIDENCE"
  else if score ≥ 70 then "MODERATE CONFIDENCE"
  else "LOW CONFIDENCE"

/-! ## Orchestrator (`run_scan`) -/

/-- Stable descending insertion by `total_score`, modelling Python's stable
`sorted(high_priority, key=lambda x: x['total_score'], reverse=True)`. -/
def insertByScoreDesc (a : Analysis) : List Analysis → List Analysis
  | [] => [a]
  | b :: bs =>
    if b.total_score ≥ a.total_score then b :: insertByScoreDesc a bs
    else a :: b :: bs

/-- Stable sort, descending by `total_score`. -/
def sortByScoreDesc : List Analysis → List Analysis
  | [] => []
  | a :: as => insertByScoreDesc a (sortByScoreDesc as)

/-- The analyses of all candidates, in discovery order (the loop at
lines 586–600 of `run_scan`). -/
def analyses (inputs : List (StockInfo × ProviderData)) : List Analysis :=
  inputs.map (fun x => analyze_stock x.1 x.2)

/-- `run_scan` (lines 567–615) from the point where `upcoming_earnings` is
in hand: analyze every candidate, keep those with
`total_score >= self.alert_threshold` (line 590), sort descending by total
score, and send one alert per member of the result (lines 605–606).  The
returned list is the alert set in send order. -/
def run_scan (inputs : List (StockInfo × ProviderData)) : List Analysis :=
  sortByScoreDesc ((analyses inputs).filter (fun a => a.total_score ≥ alert_threshold))

/-! ## Contribution lemmas: what each check actually adds to the total -/

/-- What the ESP check adds to `total_score` (the `if esp['has_data']`
guard at line 435). -/
def espContribution (o : Option EspData) : Int :=
  let r := calculate_earnings_esp o
  if r.has_data then r.esp_score else 0

/-- What the insider check adds to `total_score` (line 443). -/
def insiderContribution (o : Option InsiderData) : Int :=
  let r := check_insider_activity o
  if r.has_activity then r.score else 0

/-- What the analyst check adds to `total_score` (line 450): nothing
unless `has_activity and score > 0`. -/
def analystContribution (o : Option AnalystData) : Int :=
  let r := check_analyst_activity o
  if r.has_activity ∧ r.score > 0 then r.score else 0

/-- What the momentum check adds to `total_score` (line 457). -/
def momentumContribution (o : Option MomentumData) : Int :=
  let r := check_price_momentum o
  if r.has_momentum then r.score else 0

/-- What the beat-rate check adds to `total_score` (line 465). -/
def historyContribution (o : Option EarningsHistData) : Int :=
  let r := check_historical_beat_rate o
  if r.has_history then r.score else 0

/-- What the sector check adds to `total_score` (line 472). -/
def sectorContribution (sector : String) (o : Option SectorFetch) : Int :=
  let r := check_sector_momentum sector o
  if r.has_momentum then r.score else 0

/-- The signal entries the ESP block appends (lines 435–438): the score is
added whenever `has_data`, the entry is shown only when the score is
positive. -/
def espEntries (o : Option EspData) : List (String × Int × String) :=
  let r := calculate_earnings_esp o
  if r.has_data then
    (if r.esp_score > 0 then [("📊 Earnings ESP", r.esp_score, r.signal_strength)] else [])
  else []

/-- The signal entry the insider block appends (lines 443–445). -/
def insiderEntries (o : Option InsiderData) : List (String × Int × String) :=
  let r := check_insider_activity o
  if r.has_activity then [("💼 Insider Activity", r.score, r.signal)] else []

/-- The signal entry the analyst block appends (lines 450–452): only when
`has_activity` and the score is positive. -/
def analystEntries (o : Option AnalystData) : List (String × Int × String) :=
  let r := check_analyst_activity o
  if r.has_activity ∧ r.score > 0 then
    [("📈 Analyst Activity", r.score, r.signal.getD "")]
  else []

/-- The signal entries the momentum block appends (lines 457–460): one per
fired sub-signal, each carrying the full combined score. -/
def momentumEntries (o : Option MomentumData) : List (String × Int × String) :=
  let r := check_price_momentum o
  if r.has_momentum then r.signals.map (fun s => ("📈 Price Momentum", r.score, s)) else []

/-- The signal entry the beat-rate block appends (lines 465–467). -/
def historyEntries (o : Option EarningsHistData) : List (String × Int × String) :=
  let r := check_historical_beat_rate o
  if r.has_history then [("📜 Historical Beat Rate", r.score, r.signal)] else []

/-- The signal entry the sector block appends (lines 472–474). -/
def sectorEntries (sector : String) (o : Option SectorFetch) : List (String × Int × String) :=
  let r := check_sector_momentum sector o
  if r.has_momentum then [("🏭 Sector Momentum", r.score, r.signal)] else []

/-! ## Spec-side definitions, for comparison with the code

These two follow the wording of the specification, not the source; they
exist only to be measured against the definitions above. -/

/-- The plain sum of the six raw evaluator scores, negative ones included
— the quantity the spec says the total equals. -/
def sumSixScores (si : StockInfo) (pd : ProviderData) : Int :=
  (calculate_earnings_esp pd.esp).esp_score + (check_insider_activity pd.insider).score +
  (check_analyst_activity pd.analyst).score + (check_price_momentum pd.momentum).score +
  (check_historical_beat_rate pd.history).score +
  (check_sector_momentum si.sector pd.sectorFetch).score

/-- The most recent (at most 4) rows of the earnings table that actually
carry a reported surprise value — the population the spec says the beat
rate is computed over. -/
def reportedSurprises (d : EarningsHistData) : List ℚ :=
  (d.rows.filterMap id).take 4

/-- The beat rate over the reported quarters only, as the spec words it. -/
def beatRateOverReported (d : EarningsHistData) : ℚ :=
  (((reportedSurprises d).filter (fun v => v > 0)).length : ℚ) /
    ((reportedSurprises d).length : ℚ)

/-- The score the spec's beat-rate rule assigns when the rate is taken
over reported quarters only. -/
def specHistoryScore (d : EarningsHistData) : Int :=
  if beatRateOverReported d ≥ 3/4 then 20
  else if beatRateOverReported d ≥ 1/2 then 10
  else 0

/-! ## Concrete scenario data used by counterexamples and witnesses -/

/-- A ticker record used only to instantiate theorems. -/
def mkInfo (t : String) : StockInfo :=
  { ticker := t, company := t ++ " Co", earningsDate := 0, marketCap := 0,
    sector := "Technology" }

/-- Scenario data: one net analyst downgrade (score −10) next to 3 insider
purchases (score 25). -/
def pdAnalystDown : ProviderData :=
  { esp := none, insider := some ⟨true, 3⟩, analyst := some ⟨true, 1, 0, 1⟩,
    momentum := none, history := none, sectorFetch := none }

/-- Scenario data scoring 75: 10 up-revisions (ESP 30), 3 insider
purchases (25), 3 net upgrades (20). -/
def pdHighScore : ProviderData :=
  { esp := some ⟨true, some 1, true, 10, 0⟩, insider := some ⟨true, 3⟩,
    analyst := some ⟨true, 3, 3, 0⟩,
    momentum := none, history := none, sectorFetch := none }

/-- Earnings table whose `head(4)` holds one reported beat and three
unreported (NaN) rows — the shape yfinance returns when upcoming quarters
sit on top of the table. -/
def histOneReported : EarningsHistData := ⟨[some 5, none, none, none], true⟩

/-- Earnings table with four reported quarters, three of them beats. -/
def histThreeOfFour : EarningsHistData := ⟨[some 1, some 2, some (-1), some 3], true⟩

/-- Scenario data for fault isolation: ESP present (score 10) and one
insider purchase (score 10); everything else errored. -/
def pdEspInsider : ProviderData :=
  { esp := some ⟨true, some 1, true, 2, 0⟩, insider := some ⟨true, 1⟩,
    analyst := none, momentum := none, history := none, sectorFetch := none }

/-- Scenario data with every fetch errored. -/
def pdAllErrored : ProviderData :=
  { esp := none, insider := none, analyst := none, momentum := none,
    history := none, sectorFetch := none }

/-- Momentum history: up 10% over the window and within 3% of the 30-day
high, so both sub-signals fire. -/
def momBothFire : MomentumData :=
  ⟨[100, 100, 100, 100, 100, 100, 110], [111]⟩

/-- `applyCheck` adds `score` to the total exactly when the gate holds. -/
lemma applyCheck_total_score (gate : Prop) [Decidable gate] (score : Int)
    (entries : List (String × Int × String)) (a : Analysis) :
    (applyCheck gate score entries a).total_score =
      a.total_score + (if gate then score else 0) := by
  unfold applyCheck; split <;> simp

/-- `applyCheck` appends `entries` to the signal list exactly when the
gate holds. -/
lemma applyCheck_signals (gate : Prop) [Decidable gate] (score : Int)
    (entries : List (String × Int × String)) (a : Analysis) :
    (applyCheck gate score entries a).signals =
      a.signals ++ (if gate then entries else []) := by
  unfold applyCheck; split <;> simp

/-- `applyCheck` never touches the identifying fields. -/
lemma applyCheck_ticker (gate : Prop) [Decidable gate] (score : Int)
    (entries : List (String × Int × String)) (a : Analysis) :
    (applyCheck gate score entries a).ticker = a.ticker := by
  unfold applyCheck; split <;> rfl

/-- The total score is the sum of the six gated contributions, in check
order. -/
lemma total_score_decomposition (si : StockInfo) (pd : ProviderData) :
    (analyze_stock si pd).total_score =
      espContribution pd.esp + insiderContribution pd.insider +
      analystContribution pd.analyst + momentumContribution pd.momentum +
      historyContribution pd.history + sectorContribution si.sector pd.sectorFetch := by
  simp only [analyze_stock, applyCheck_total_score, espContribution, insiderContribution,
    analystContribution, momentumContribution, historyContribution, sectorContribution,
    zero_add]

/-- A result with `has_data = false` carries score 0. -/
lemma esp_score_of_not_has_data (o : Option EspData)
    (h : (calculate_earnings_esp o).has_data = false) :
    (calculate_earnings_esp o).esp_score = 0 := by
  rcases o with _ | ⟨ha, me, hr, up, down⟩
  · rfl
  · cases ha
    · rfl
    · rcases me with _ | m
      · rfl
      · by_cases hm : m = 0
        · simp [calculate_earnings_esp, hm]
        · simp [calculate_earnings_esp, hm] at h

/-- When `has_data` is false the ESP score is 0, so the gate is the score
itself. -/
lemma espContribution_eq_score (o : Option EspData) :
    espContribution o = (calculate_earnings_esp o).esp_score := by
  unfold espContribution
  by_cases h : (calculate_earnings_esp o).has_data = true
  · simp [h]
  · simp only [Bool.not_eq_true] at h
    simp [h, esp_score_of_not_has_data o h]

/-- A result with `has_activity = false` carries score 0. -/
lemma insider_score_of_not_has_activity (o : Option InsiderData)
    (h : (check_insider_activity o).has_activity = false) :
    (check_insider_activity o).score = 0 := by
  rcases o with _ | d
  · rfl
  · by_cases hg : d.hasTrades = true ∧ d.numPurchases > 0
    · simp [check_insider_activity, hg] at h
    · simp [check_insider_activity, hg]

/-- When `has_activity` is false the insider score is 0, so the gate is
the score itself. -/
lemma insiderContribution_eq_score (o : Option InsiderData) :
    insiderContribution o = (check_insider_activity o).score := by
  unfold insiderContribution
  by_cases h : (check_insider_activity o).has_activity = true
  · simp [h]
  · simp only [Bool.not_eq_true] at h
    simp [h, insider_score_of_not_has_activity o h]

/-- An analyst result with `has_activity = false` carries score 0. -/
lemma analyst_score_of_not_has_activity (o : Option AnalystData)
    (h : (check_analyst_activity o).has_activity = false) :
    (check_analyst_activity o).score = 0 := by
  rcases o with _ | d
  · rfl
  · by_cases hg : d.hasRecs = true ∧ d.numRecent > 0
    · simp [check_analyst_activity, hg] at h
    · simp [check_analyst_activity, hg]

/-- The analyst gate keeps exactly the positive part of the analyst
score. -/
lemma analystContribution_eq_posPart (o : Option AnalystData) :
    analystContribution o = max 0 (check_analyst_activity o).score := by
  unfold analystContribution
  by_cases h : (check_analyst_activity o).has_activity = true ∧
      (check_analyst_activity o).score > 0
  · rw [if_pos h]; omega
  · rw [if_neg h]
    by_cases ha : (check_analyst_activity o).has_activity = true
    · have hs : ¬ (check_analyst_activity o).score > 0 := fun hs => h ⟨ha, hs⟩
      omega
    · have := analyst_score_of_not_has_activity o (by simpa using ha)
      omega

/-- The momentum score is never negative. -/
lemma momentum_score_nonneg (o : Option MomentumData) :
    0 ≤ (check_price_momentum o).score := by
  rcases o with _ | d
  · simp [check_price_momentum]
  · simp only [check_price_momentum]
    split_ifs <;> simp

/-- `has_momentum` is exactly `score > 0` in a momentum result. -/
lemma momentum_hasMomentum_iff (o : Option MomentumData) :
    (check_price_momentum o).has_momentum = decide ((check_price_momentum o).score > 0) := by
  rcases o with _ | d
  · rfl
  · simp only [check_price_momentum]
    split_ifs <;> rfl

/-- The momentum gate is the score itself: the score is non-negative and
`has_momentum` holds exactly when it is positive. -/
lemma momentumContribution_eq_score (o : Option MomentumData) :
    momentumContribution o = (check_price_momentum o).score := by
  unfold momentumContribution
  by_cases h : (check_price_momentum o).has_momentum = true
  · simp [h]
  · simp only [Bool.not_eq_true] at h
    have h0 := momentum_score_nonneg o
    rw [momentum_hasMomentum_iff] at h
    simp only [decide_eq_false_iff_not, not_lt] at h
    simp [Bool.not_eq_true, momentum_hasMomentum_iff]
    omega

/-- A beat-rate result with `has_history = false` carries score 0. -/
lemma history_score_of_not_has_history (o : Option EarningsHistData)
    (h : (check_historical_beat_rate o).has_history = false) :
    (check_historical_beat_rate o).score = 0 := by
  rcases o with _ | d
  · rfl
  · simp only [check_historical_beat_rate] at h ⊢
    split_ifs at h ⊢ <;> simp_all

/-- When `has_history` is false the beat-rate score is 0, so the gate is
the score itself. -/
lemma historyContribution_eq_score (o : Option EarningsHistData) :
    historyContribution o = (check_historical_beat_rate o).score := by
  unfold historyContribution
  by_cases h : (check_historical_beat_rate o).has_history = true
  · simp [h]
  · simp only [Bool.not_eq_true] at h
    simp [h, history_score_of_not_has_history o h]

/-- The sector score is never negative. -/
lemma sector_score_nonneg (s : String) (o : Option SectorFetch) :
    0 ≤ (check_sector_momentum s o).score := by
  rcases o with _ | d
  · simp [check_sector_momentum]
  · simp only [check_sector_momentum]
    rcases sector_etfs.lookup s with _ | e
    · simp
    · simp only []
      split_ifs <;> simp

/-- `has_momentum` is exactly `score > 0` in a sector result. -/
lemma sector_hasMomentum_iff (s : String) (o : Option SectorFetch) :
    (check_sector_momentum s o).has_momentum =
      decide ((check_sector_momentum s o).score > 0) := by
  rcases o with _ | d
  · rfl
  · simp only [check_sector_momentum]
    rcases sector_etfs.lookup s with _ | e
    · rfl
    · simp only []
      split_ifs <;> rfl

/-- The sector gate is the score itself. -/
lemma sectorContribution_eq_score (s : String) (o : Option SectorFetch) :
    sectorContribution s o = (check_sector_momentum s o).score := by
  unfold sectorContribution
  by_cases h : (check_sector_momentum s o).has_momentum = true
  · simp [h]
  · simp only [Bool.not_eq_true] at h
    have h0 := sector_score_nonneg s o
    rw [sector_hasMomentum_iff] at h
    simp only [decide_eq_false_iff_not, not_lt] at h
    simp [Bool.not_eq_true, sector_hasMomentum_iff]
    omega

/-- The signal list is the concatenation of the six blocks' entries, in
check order. -/
lemma signals_decomposition (si : StockInfo) (pd : ProviderData) :
    (analyze_stock si pd).signals =
      espEntries pd.esp ++ insiderEntries pd.insider ++ analystEntries pd.analyst ++
      momentumEntries pd.momentum ++ historyEntries pd.history ++
      sectorEntries si.sector pd.sectorFetch := by
  simp only [analyze_stock, applyCheck_signals, espEntries, insiderEntries, analystEntries,
    momentumEntries, historyEntries, sectorEntries, List.nil_append, List.append_assoc]

/-- Every ESP entry is named `📊 Earnings ESP`. -/
lemma mem_espEntries_name (o : Option EspData) (e : String × Int × String)
    (he : e ∈ espEntries o) : e.1 = "📊 Earnings ESP" := by
  simp only [espEntries] at he
  split_ifs at he <;> simp_all

/-- Every insider entry is named `💼 Insider Activity`. -/
lemma mem_insiderEntries_name (o : Option InsiderData) (e : String × Int × String)
    (he : e ∈ insiderEntries o) : e.1 = "💼 Insider Activity" := by
  simp only [insiderEntries] at he
  split_ifs at he <;> simp_all

/-- Every momentum entry is named `📈 Price Momentum`. -/
lemma mem_momentumEntries_name (o : Option MomentumData) (e : String × Int × String)
    (he : e ∈ momentumEntries o) : e.1 = "📈 Price Momentum" := by
  simp only [momentumEntries] at he
  split_ifs at he
  · simp only [List.mem_map] at he
    obtain ⟨s, -, rfl⟩ := he
    rfl
  · simp at he

/-- Every beat-rate entry is named `📜 Historical Beat Rate`. -/
lemma mem_historyEntries_name (o : Option EarningsHistData) (e : String × Int × String)
    (he : e ∈ historyEntries o) : e.1 = "📜 Historical Beat Rate" := by
  simp only [historyEntries] at he
  split_ifs at he <;> simp_all

/-- Every sector entry is named `🏭 Sector Momentum`. -/
lemma mem_sectorEntries_name (s : String) (o : Option SectorFetch) (e : String × Int × String)
    (he : e ∈ sectorEntries s o) : e.1 = "🏭 Sector Momentum" := by
  simp only [sectorEntries] at he
  split_ifs at he <;> simp_all

/-- A non-positive analyst score appends nothing. -/
lemma analystEntries_eq_nil_of_nonpos (o : Option AnalystData)
    (h : (check_analyst_activity o).score ≤ 0) : analystEntries o = [] := by
  simp only [analystEntries]
  rw [if_neg]
  rintro ⟨-, hpos⟩
  omega

/-- Insertion keeps exactly the members. -/
lemma mem_insertByScoreDesc (a x : Analysis) (l : List Analysis) :
    x ∈ insertByScoreDesc a l ↔ x = a ∨ x ∈ l := by
  induction l with
  | nil => simp [insertByScoreDesc]
  | cons b bs ih =>
    simp only [insertByScoreDesc]
    split_ifs <;> simp [ih] <;> tauto

/-- Sorting keeps exactly the members. -/
lemma mem_sortByScoreDesc (x : Analysis) (l : List Analysis) :
    x ∈ sortByScoreDesc l ↔ x ∈ l := by
  induction l with
  | nil => simp [sortByScoreDesc]
  | cons a as ih => simp [sortByScoreDesc, mem_insertByScoreDesc, ih]

/-- A failed ESP fetch contributes nothing. -/
lemma espContribution_none : espContribution none = 0 := rfl

/-- A failed insider fetch contributes nothing. -/
lemma insiderContribution_none : insiderContribution none = 0 := rfl

/-- A failed analyst fetch contributes nothing. -/
lemma analystContribution_none : analystContribution none = 0 := rfl

/-- A failed momentum fetch contributes nothing. -/
lemma momentumContribution_none : momentumContribution none = 0 := rfl

/-- A failed beat-rate fetch contributes nothing. -/
lemma historyContribution_none : historyContribution none = 0 := rfl

/-- A failed sector fetch contributes nothing. -/
lemma sectorContribution_none (s : String) : sectorContribution s none = 0 := rfl

/-- Bounds for the ESP contribution, given a non-negative up-revision
count. -/
lemma espContribution_bounds (o : Option EspData)
    (h : ∀ d, o = some d → 0 ≤ d.upLast7days) :
    0 ≤ espContribution o ∧ espContribution o ≤ 30 := by
  rw [espContribution_eq_score]
  rcases o with _ | ⟨ha, me, hr, up, down⟩
  · decide
  · have hup : 0 ≤ up := h _ rfl
    rcases me with _ | m
    · simp only [calculate_earnings_esp]
      split_ifs <;> decide
    · simp only [calculate_earnings_esp]
      split_ifs <;> refine ⟨?_, ?_⟩ <;> first
        | omega
        | (simp_all; omega)
        | simp_all

/-- The insider contribution lies in `[0, 25]`. -/
lemma insiderContribution_bounds (o : Option InsiderData) :
    0 ≤ insiderContribution o ∧ insiderContribution o ≤ 25 := by
  rw [insiderContribution_eq_score]
  rcases o with _ | ⟨ht, n⟩
  · decide
  · simp only [check_insider_activity]
    split_ifs <;> simp_all

/-- The analyst score never exceeds 20. -/
lemma analyst_score_le (o : Option AnalystData) :
    (check_analyst_activity o).score ≤ 20 := by
  rcases o with _ | ⟨hr, nr, u, dg⟩
  · decide
  · simp only [check_analyst_activity]
    split_ifs <;> first
      | omega
      | (simp_all; omega)
      | simp_all

/-- The analyst contribution lies in `[0, 20]`. -/
lemma analystContribution_bounds (o : Option AnalystData) :
    0 ≤ analystContribution o ∧ analystContribution o ≤ 20 := by
  rw [analystContribution_eq_posPart]
  have := analyst_score_le o
  omega

/-- The momentum score never exceeds 25. -/
lemma momentum_score_le (o : Option MomentumData) :
    (check_price_momentum o).score ≤ 25 := by
  rcases o with _ | d
  · decide
  · simp only [check_price_momentum]
    split_ifs <;> simp_all

/-- The momentum contribution lies in `[0, 25]`. -/
lemma momentumContribution_bounds (o : Option MomentumData) :
    0 ≤ momentumContribution o ∧ momentumContribution o ≤ 25 := by
  rw [momentumContribution_eq_score]
  exact ⟨momentum_score_nonneg o, momentum_score_le o⟩

/-- The beat-rate contribution lies in `[0, 20]`. -/
lemma historyContribution_bounds (o : Option EarningsHistData) :
    0 ≤ historyContribution o ∧ historyContribution o ≤ 20 := by
  rw [historyContribution_eq_score]
  rcases o with _ | d
  · decide
  · simp only [check_historical_beat_rate]
    split_ifs <;> simp_all

/-- The sector score never exceeds 15. -/
lemma sector_score_le (s : String) (o : Option SectorFetch) :
    (check_sector_momentum s o).score ≤ 15 := by
  rcases o with _ | d
  · simp [check_sector_momentum]
  · simp only [check_sector_momentum]
    rcases sector_etfs.lookup s with _ | e
    · simp
    · simp only []
      split_ifs <;> simp

/-- The sector contribution lies in `[0, 15]`. -/
lemma sectorContribution_bounds (s : String) (o : Option SectorFetch) :
    0 ≤ sectorContribution s o ∧ sectorContribution s o ≤ 15 := by
  rw [sectorContribution_eq_score]
  exact ⟨sector_score_nonneg s o, sector_score_le s o⟩

/-! ## Claims -/

/-- **C1**, counterexample: with one net analyst downgrade (evaluator
score −10, activity present) next to 3 insider purchases (score 25),
`analyze_stock` reports total 25: the −10 is excluded from display AND
from the total, so the total does not equal the sum of all six evaluator
scores (which is 15). -/
theorem C1_counterexample :
    (check_analyst_activity pdAnalystDown.analyst).score = -10 ∧
    (check_analyst_activity pdAnalystDown.analyst).has_activity = true ∧
    (analyze_stock (mkInfo "C1") pdAnalystDown).total_score = 25 ∧
    sumSixScores (mkInfo "C1") pdAnalystDown = 15 ∧
    (analyze_stock (mkInfo "C1") pdAnalystDown).total_score ≠
      sumSixScores (mkInfo "C1") pdAnalystDown := by
  decide

/-- **C1**, amended: a negative analyst score is excluded from the
displayed signal list and is also NOT subtracted from the total; the total
score equals the sum of the six evaluator scores with the analyst score
replaced by its positive part `max 0 ·`. -/
theorem C1_amended_analyst_negative (si : StockInfo) (pd : ProviderData) :
    ((analyze_stock si pd).total_score =
      (calculate_earnings_esp pd.esp).esp_score +
      (check_insider_activity pd.insider).score +
      max 0 (check_analyst_activity pd.analyst).score +
      (check_price_momentum pd.momentum).score +
      (check_historical_beat_rate pd.history).score +
      (check_sector_momentum si.sector pd.sectorFetch).score) ∧
    ((check_analyst_activity pd.analyst).score < 0 →
      ∀ e ∈ (analyze_stock si pd).signals, e.1 ≠ "📈 Analyst Activity") := by
  constructor
  · rw [total_score_decomposition, espContribution_eq_score, insiderContribution_eq_score,
      analystContribution_eq_posPart, momentumContribution_eq_score,
      historyContribution_eq_score, sectorContribution_eq_score]
  · intro hneg e he
    rw [signals_decomposition] at he
    simp only [List.mem_append] at he
    rcases he with ((((he | he) | he) | he) | he) | he
    · rw [mem_espEntries_name _ _ he]; decide
    · rw [mem_insiderEntries_name _ _ he]; decide
    · rw [analystEntries_eq_nil_of_nonpos _ (le_of_lt hneg)] at he
      exact absurd he (List.not_mem_nil e)
    · rw [mem_momentumEntries_name _ _ he]; decide
    · rw [mem_historyEntries_name _ _ he]; decide
    · rw [mem_sectorEntries_name _ _ _ he]; decide

/-- **C1**, amended, witness: at the downgrade scenario the total is 25
and the displayed insider entry is not the analyst entry. -/
theorem C1_amended_witness :
    (analyze_stock (mkInfo "C1") pdAnalystDown).total_score = 25 ∧
    ("💼 Insider Activity", (25 : Int), "Cluster buying").1 ≠ "📈 Analyst Activity" :=
  ⟨by rw [(C1_amended_analyst_negative (mkInfo "C1") pdAnalystDown).1]; decide,
   (C1_amended_analyst_negative (mkInfo "C1") pdAnalystDown).2 (by decide) _ (by decide)⟩

/-- **C2**: the alert threshold is the fixed 70, and an analysis is in the
alert set produced by `run_scan` exactly when it is one of the run's
analyses and its total score is at least 70. -/
theorem C2_alert_iff_threshold (inputs : List (StockInfo × ProviderData)) (a : Analysis) :
    alert_threshold = 70 ∧
    (a ∈ run_scan inputs ↔ a ∈ analyses inputs ∧ (70 : Int) ≤ a.total_score) := by
  refine ⟨rfl, ?_⟩
  unfold run_scan
  rw [mem_sortByScoreDesc, List.mem_filter]
  simp [alert_threshold]

/-- **C2**, witness: a scenario scoring 75 is alerted. -/
theorem C2_witness :
    analyze_stock (mkInfo "C2") pdHighScore ∈ run_scan [((mkInfo "C2"), pdHighScore)] := by
  refine ((C2_alert_iff_threshold [((mkInfo "C2"), pdHighScore)]
    (analyze_stock (mkInfo "C2") pdHighScore)).2).mpr ⟨?_, ?_⟩
  · simp [analyses]
  · decide

/-- **C3**, counterexample: on a table whose first four rows hold one
reported beat and three unreported (NaN) surprises, the code computes
beat rate 1/4 and score 0, while the rate over the quarters with a
reported surprise value is 1 (≥ 75%), which the claim scores 20. -/
theorem C3_counterexample :
    (check_historical_beat_rate (some histOneReported)).has_history = true ∧
    (check_historical_beat_rate (some histOneReported)).score = 0 ∧
    (check_historical_beat_rate (some histOneReported)).beat_rate = 1/4 ∧
    beatRateOverReported histOneReported = 1 ∧
    specHistoryScore histOneReported = 20 ∧
    (check_historical_beat_rate (some histOneReported)).score ≠
      specHistoryScore histOneReported := by
  have hne : ([some (5:ℚ), none, none, none] : List (Option ℚ)) ≠ [] := by simp
  refine ⟨?_, ?_, ?_, ?_, ?_, ?_⟩ <;>
    norm_num [check_historical_beat_rate, histOneReported, isBeat,
      beatRateOverReported, reportedSurprises, specHistoryScore, hne,
      List.filterMap_cons, id_eq]

/-- **C3**, amended: the evaluator computes the beat rate over ALL of the
first (at most 4) rows of the earnings table — rows without a reported
surprise count in the denominator but never as beats — and scores 20 when
that rate is at least 3/4, 10 when at least 1/2, else 0. -/
theorem C3_amended_beat_rate (d : EarningsHistData)
    (hrows : d.rows ≠ []) (hcol : d.hasSurpriseCol = true) :
    (check_historical_beat_rate (some d)).has_history = true ∧
    (check_historical_beat_rate (some d)).beats = ((d.rows.take 4).filter isBeat).length ∧
    (check_historical_beat_rate (some d)).total = (d.rows.take 4).length ∧
    (check_historical_beat_rate (some d)).beat_rate =
      (((d.rows.take 4).filter isBeat).length : ℚ) / ((d.rows.take 4).length : ℚ) ∧
    (check_historical_beat_rate (some d)).score =
      (if (((d.rows.take 4).filter isBeat).length : ℚ) / ((d.rows.take 4).length : ℚ) ≥ 3/4
       then 20
       else if (((d.rows.take 4).filter isBeat).length : ℚ) / ((d.rows.take 4).length : ℚ) ≥ 1/2
       then 10 else 0) := by
  have htot : (d.rows.take 4).length > 0 := by
    rcases hx : d.rows with _ | ⟨x, xs⟩
    · exact absurd hx hrows
    · simp
  simp only [check_historical_beat_rate]
  rw [if_pos hrows, if_pos hcol, if_pos htot]
  exact ⟨rfl, rfl, rfl, rfl, rfl⟩

/-- **C3**, amended, witness: four reported quarters with three beats give
rate 3/4 and score 20. -/
theorem C3_amended_witness :
    (check_historical_beat_rate (some histThreeOfFour)).score = 20 := by
  have h := C3_amended_beat_rate histThreeOfFour (by decide) rfl
  rw [h.2.2.2.2]
  norm_num [histThreeOfFour, isBeat]

/-- **C4**: with analysis data present, a truthy mean estimate and
revision data available, the ESP evaluator returns
`min 30 (5 × up)` when 7-day up-revisions exceed down-revisions and 0
otherwise, and the score never exceeds 30. -/
theorem C4_esp_revision_score (d : EspData) (m : ℚ)
    (hA : d.hasAnalysis = true) (hm : d.meanEstimate = some m) (hm0 : m ≠ 0)
    (hR : d.hasRevisions = true) :
    (calculate_earnings_esp (some d)).has_data = true ∧
    (calculate_earnings_esp (some d)).esp_score =
      (if d.upLast7days > d.downLast7days then min 30 (5 * d.upLast7days) else 0) ∧
    (calculate_earnings_esp (some d)).esp_score ≤ 30 := by
  rcases d with ⟨ha, me, hr, up, down⟩
  simp only at hA hm hR
  subst hA hm hR
  have hscore : (calculate_earnings_esp (some ⟨true, some m, true, up, down⟩)).esp_score =
      (if up > down then min 30 (5 * up) else 0) := by
    simp only [calculate_earnings_esp, if_true, true_and]
    rw [if_pos hm0]
    show (if up > down then min 30 (up * 5) else 0) = if up > down then min 30 (5 * up) else 0
    split_ifs
    · rw [mul_comm]
    · rfl
  refine ⟨by simp [calculate_earnings_esp, hm0], hscore, ?_⟩
  rw [hscore]
  split_ifs
  · exact min_le_left _ _
  · norm_num

/-- **C4**, witness: 10 up-revisions against 0 down give the cap 30. -/
theorem C4_witness :
    (calculate_earnings_esp (some ⟨true, some 1, true, 10, 0⟩)).esp_score = 30 := by
  have h := C4_esp_revision_score ⟨true, some 1, true, 10, 0⟩ 1 rfl rfl (by norm_num) rfl
  rw [h.2.1]; decide

/-- **C5**: with a positive price the suggested play is exactly the tier
table: notional 5000/3000/2000, stop 7/8/10, target 15/12/10 for
score ≥ 80 / 70 ≤ score < 80 / score < 70; shares are the floor of
notional over price, stop and target prices scale the price by
`1 ∓ pct/100`, and risk-reward is `target% / stop%`. -/
theorem C5_position_sizing (score : Int) (price : ℚ) (hp : 0 < price) :
    (80 ≤ score → suggested_play score price =
      some ⟨⌊(5000 : ℚ) / price⌋, 7, 15, price * (93/100), price * (115/100), 15/7⟩) ∧
    (70 ≤ score → score < 80 → suggested_play score price =
      some ⟨⌊(3000 : ℚ) / price⌋, 8, 12, price * (92/100), price * (112/100), 12/8⟩) ∧
    (score < 70 → suggested_play score price =
      some ⟨⌊(2000 : ℚ) / price⌋, 10, 10, price * (90/100), price * (110/100), 1⟩) := by
  refine ⟨fun h80 => ?_, fun h70 h80 => ?_, fun h70 => ?_⟩
  · have h : score ≥ 80 := h80
    simp only [suggested_play, if_pos hp, if_pos h]
    norm_num [Play.mk.injEq]
  · have h1 : ¬ score ≥ 80 := by omega
    have h2 : score ≥ 70 := h70
    simp only [suggested_play, if_pos hp, if_neg h1, if_pos h2]
    norm_num [Play.mk.injEq]
  · have h1 : ¬ score ≥ 80 := by omega
    have h2 : ¬ score ≥ 70 := by omega
    simp only [suggested_play, if_pos hp, if_neg h1, if_neg h2]
    norm_num [Play.mk.injEq]

/-- **C5**, witness: score 85 at price 250 gives 20 shares, stop 232.50,
target 287.50, risk-reward 15/7. -/
theorem C5_witness :
    suggested_play 85 250 = some ⟨20, 7, 15, 465/2, 575/2, 15/7⟩ := by
  rw [(C5_position_sizing 85 250 (by norm_num)).1 (by norm_num)]
  norm_num [Play.mk.injEq]

/-- **C6**: with transaction data present, the insider score as a
function of the purchase count takes exactly the values 0 → 0, 1 → 10,
2 → 15, every n ≥ 3 → 25, and is monotone non-decreasing. -/
theorem C6_insider_monotone_capped :
    (check_insider_activity (some ⟨true, 0⟩)).score = 0 ∧
    (check_insider_activity (some ⟨true, 1⟩)).score = 10 ∧
    (check_insider_activity (some ⟨true, 2⟩)).score = 15 ∧
    (∀ n : Nat, 3 ≤ n → (check_insider_activity (some ⟨true, n⟩)).score = 25) ∧
    (∀ m n : Nat, m ≤ n →
      (check_insider_activity (some ⟨true, m⟩)).score ≤
        (check_insider_activity (some ⟨true, n⟩)).score) := by
  have key : ∀ n : Nat, (check_insider_activity (some ⟨true, n⟩)).score =
      if 3 ≤ n then 25 else if n = 2 then 15 else if n = 1 then 10 else 0 := by
    intro n
    simp only [check_insider_activity]
    split_ifs <;> first
      | omega
      | (simp_all; omega)
      | simp_all
  refine ⟨by decide, by decide, by decide, fun n h3 => ?_, fun m n hmn => ?_⟩
  · rw [key]
    simp [h3]
  · rw [key, key]
    split_ifs <;> omega

/-- **C6**, witness: 10 purchases score the cluster cap 25 (not 50), and
the score at 1 purchase is at most the score at 4. -/
theorem C6_witness :
    (check_insider_activity (some ⟨true, 10⟩)).score = 25 ∧
    (check_insider_activity (some ⟨true, 1⟩)).score ≤
      (check_insider_activity (some ⟨true, 4⟩)).score :=
  ⟨C6_insider_monotone_capped.2.2.2.1 10 (by decide),
   C6_insider_monotone_capped.2.2.2.2 1 4 (by decide)⟩

/-- **C7**: every evaluator maps a failed or missing fetch (`none`) to its
score-0 default; every total decomposes into the six independent gated
contributions, so an analysis completes from the remaining evaluators when
one fails (shown by zeroing each field in turn); and the analysis at one
list position is unaffected by replacing the data at any other position. -/
theorem C7_fault_isolation :
    ((calculate_earnings_esp none).esp_score = 0 ∧
     (check_insider_activity none).score = 0 ∧
     (check_analyst_activity none).score = 0 ∧
     (check_price_momentum none).score = 0 ∧
     (check_historical_beat_rate none).score = 0 ∧
     (∀ s, (check_sector_momentum s none).score = 0)) ∧
    (∀ (si : StockInfo) (pd : ProviderData), (analyze_stock si pd).total_score =
      espContribution pd.esp + insiderContribution pd.insider + analystContribution pd.analyst +
      momentumContribution pd.momentum + historyContribution pd.history +
      sectorContribution si.sector pd.sectorFetch) ∧
    (∀ (si : StockInfo) (pd : ProviderData),
      (analyze_stock si { pd with esp := none }).total_score =
        insiderContribution pd.insider + analystContribution pd.analyst +
        momentumContribution pd.momentum + historyContribution pd.history +
        sectorContribution si.sector pd.sectorFetch ∧
      (analyze_stock si { pd with insider := none }).total_score =
        espContribution pd.esp + analystContribution pd.analyst +
        momentumContribution pd.momentum + historyContribution pd.history +
        sectorContribution si.sector pd.sectorFetch ∧
      (analyze_stock si { pd with analyst := none }).total_score =
        espContribution pd.esp + insiderContribution pd.insider +
        momentumContribution pd.momentum + historyContribution pd.history +
        sectorContribution si.sector pd.sectorFetch ∧
      (analyze_stock si { pd with momentum := none }).total_score =
        espContribution pd.esp + insiderContribution pd.insider +
        analystContribution pd.analyst + historyContribution pd.history +
        sectorContribution si.sector pd.sectorFetch ∧
      (analyze_stock si { pd with history := none }).total_score =
        espContribution pd.esp + insiderContribution pd.insider +
        analystContribution pd.analyst + momentumContribution pd.momentum +
        sectorContribution si.sector pd.sectorFetch ∧
      (analyze_stock si { pd with sectorFetch := none }).total_score =
        espContribution pd.esp + insiderContribution pd.insider +
        analystContribution pd.analyst + momentumContribution pd.momentum +
        historyContribution pd.history) ∧
    (∀ (l : List (StockInfo × ProviderData)) (i j : Nat) (x : StockInfo × ProviderData),
      j ≠ i → (analyses (l.set i x))[j]? = (analyses l)[j]?) := by
  refine ⟨⟨rfl, rfl, rfl, rfl, rfl, fun s => rfl⟩, total_score_decomposition,
    fun si pd => ?_, fun l i j x hij => ?_⟩
  · refine ⟨?_, ?_, ?_, ?_, ?_, ?_⟩ <;>
      · rw [total_score_decomposition]
        dsimp only
        simp only [espContribution_none, insiderContribution_none, analystContribution_none,
          momentumContribution_none, historyContribution_none, sectorContribution_none]
        omega
  · simp only [analyses, List.getElem?_map]
    rw [List.getElem?_set_ne (by omega)]

/-- **C7**, witness: with the ESP fetch failed the sample analysis totals
the remaining 10, and replacing position 0 leaves position 1 unchanged. -/
theorem C7_witness :
    (analyze_stock (mkInfo "C7") { pdEspInsider with esp := none }).total_score = 10 ∧
    (analyses ([((mkInfo "C7"), pdEspInsider), ((mkInfo "C7b"), pdAllErrored)].set 0
        ((mkInfo "C7"), pdAllErrored)))[1]? =
      (analyses [((mkInfo "C7"), pdEspInsider), ((mkInfo "C7b"), pdAllErrored)])[1]? := by
  constructor
  · rw [(C7_fault_isolation.2.2.1 (mkInfo "C7") pdEspInsider).1]
    decide
  · exact C7_fault_isolation.2.2.2 [((mkInfo "C7"), pdEspInsider),
      ((mkInfo "C7b"), pdAllErrored)] 0 1 ((mkInfo "C7"), pdAllErrored) (by decide)

/-- **C8**: the scan is a deterministic function of the provider data —
equal inputs give the same alerted tickers, the same total scores and the
same per-signal lists. -/
theorem C8_determinism (d1 d2 : List (StockInfo × ProviderData)) (h : d1 = d2) :
    (run_scan d1).map (fun a => a.ticker) = (run_scan d2).map (fun a => a.ticker) ∧
    (run_scan d1).map (fun a => a.total_score) = (run_scan d2).map (fun a => a.total_score) ∧
    (run_scan d1).map (fun a => a.signals) = (run_scan d2).map (fun a => a.signals) := by
  subst h
  exact ⟨rfl, rfl, rfl⟩

/-- **C8**, witness: the determinism theorem applied to a concrete run. -/
theorem C8_witness :
    (run_scan [((mkInfo "C8"), pdAllErrored)]).map (fun a => a.ticker) =
      (run_scan [((mkInfo "C8"), pdAllErrored)]).map (fun a => a.ticker) :=
  (C8_determinism [((mkInfo "C8"), pdAllErrored)] [((mkInfo "C8"), pdAllErrored)] rfl).1

/-- **C9**: when the provider's up-revision count is non-negative, every
total score lies between 0 and 135: each gated contribution is
non-negative and capped (ESP 30, insider 25, analyst 20, momentum 25,
beat rate 20, sector 15). -/
theorem C9_total_score_bounds (si : StockInfo) (pd : ProviderData)
    (hrev : ∀ d, pd.esp = some d → 0 ≤ d.upLast7days) :
    0 ≤ (analyze_stock si pd).total_score ∧ (analyze_stock si pd).total_score ≤ 135 := by
  rw [total_score_decomposition]
  have h1 := espContribution_bounds pd.esp hrev
  have h2 := insiderContribution_bounds pd.insider
  have h3 := analystContribution_bounds pd.analyst
  have h4 := momentumContribution_bounds pd.momentum
  have h5 := historyContribution_bounds pd.history
  have h6 := sectorContribution_bounds si.sector pd.sectorFetch
  omega

/-- **C9**, witness: the bounds at a concrete scenario with 2 up-revisions. -/
theorem C9_witness :
    0 ≤ (analyze_stock (mkInfo "C9") pdEspInsider).total_score ∧
    (analyze_stock (mkInfo "C9") pdEspInsider).total_score ≤ 135 :=
  C9_total_score_bounds (mkInfo "C9") pdEspInsider
    (fun d hd => by injection hd with h; rw [← h]; decide)

/-- **C10**: when both momentum sub-signals fire, the analysis (momentum
data alone) carries two separate `📈 Price Momentum` entries, each labeled
with the full combined momentum score; the displayed per-signal scores
then sum to twice the momentum score, strictly exceeding the total. -/
theorem C10_momentum_double_entry (si : StockInfo) (d : MomentumData)
    (hlen : d.closes.length > 5) (h2 : pctChange10d d > 2) (hh : pctFromHigh d > -3) :
    ((analyze_stock si ⟨none, none, none, some d, none, none⟩).signals.map (fun e => e.1)) =
      ["📈 Price Momentum", "📈 Price Momentum"] ∧
    (∀ e ∈ (analyze_stock si ⟨none, none, none, some d, none, none⟩).signals,
      e.2.1 = (check_price_momentum (some d)).score) ∧
    (analyze_stock si ⟨none, none, none, some d, none, none⟩).total_score =
      (check_price_momentum (some d)).score ∧
    ((displayedSignals (analyze_stock si ⟨none, none, none, some d, none, none⟩)).map
        (fun e => e.2.1)).sum =
      2 * (check_price_momentum (some d)).score ∧
    (analyze_stock si ⟨none, none, none, some d, none, none⟩).total_score <
      ((displayedSignals (analyze_stock si ⟨none, none, none, some d, none, none⟩)).map
        (fun e => e.2.1)).sum := by
  have hr : check_price_momentum (some d) =
      { has_momentum := true,
        score := (if pctChange10d d > 5 then 15 else 10) + 10,
        signals := ["Up % in 10 days", "Near 30-day highs"] } := by
    simp only [check_price_momentum, if_pos hlen]
    by_cases h5 : pctChange10d d > 5
    · simp [h5, hh]
    · simp [h5, h2, hh]
  have hpos : 0 < (check_price_momentum (some d)).score := by
    rw [hr]
    split_ifs <;> norm_num
  have hsig : (analyze_stock si ⟨none, none, none, some d, none, none⟩).signals =
      [("📈 Price Momentum", (check_price_momentum (some d)).score, "Up % in 10 days"),
       ("📈 Price Momentum", (check_price_momentum (some d)).score, "Near 30-day highs")] := by
    rw [signals_decomposition]
    simp only [espEntries, insiderEntries, analystEntries, historyEntries, sectorEntries,
      momentumEntries, hr]
    simp [calculate_earnings_esp, check_insider_activity, check_analyst_activity,
      check_historical_beat_rate, check_sector_momentum]
  have htot : (analyze_stock si ⟨none, none, none, some d, none, none⟩).total_score =
      (check_price_momentum (some d)).score := by
    rw [total_score_decomposition]
    dsimp only
    rw [momentumContribution_eq_score]
    show 0 + 0 + 0 + _ + 0 + 0 = _
    omega
  refine ⟨by rw [hsig]; rfl, ?_, htot, ?_, ?_⟩
  · intro e he
    rw [hsig] at he
    simp only [List.mem_cons, List.not_mem_nil, or_false] at he
    rcases he with rfl | rfl <;> rfl
  · rw [displayedSignals, hsig]
    simp only [List.take, List.map_cons, List.map_nil, List.sum_cons, List.sum_nil]
    ring
  · rw [htot, displayedSignals, hsig]
    simp only [List.take, List.map_cons, List.map_nil, List.sum_cons, List.sum_nil]
    omega

/-- **C10**, witness: a history up 10% in the window and within 3% of its
high yields two momentum entries summing past the total. -/
theorem C10_witness :
    ((analyze_stock (mkInfo "C10") ⟨none, none, none, some momBothFire, none,
        none⟩).signals.map (fun e => e.1)) =
      ["📈 Price Momentum", "📈 Price Momentum"] ∧
    (analyze_stock (mkInfo "C10") ⟨none, none, none, some momBothFire, none,
        none⟩).total_score <
      ((displayedSignals (analyze_stock (mkInfo "C10")
          ⟨none, none, none, some momBothFire, none, none⟩)).map (fun e => e.2.1)).sum := by
  have h := C10_momentum_double_entry (mkInfo "C10") momBothFire (by decide)
    (by show (((110 : ℚ) - 100) / 100) * 100 > 2; norm_num)
    (by show (((110 : ℚ) - 111) / 111) * 100 > -3; norm_num)
  exact ⟨h.1, h.2.2.2.2⟩

end EarningsScanner
